import Mathlib

/-
Shallow embedding of the FireSynth renderer (src/main.rs, Metaa4245/firesynth).

The only algorithmic code of the repository is `FireSynth::render`
(src/main.rs lines 176-224).  It reads the sample-rate text field, parses
it as an `i32`, opens and parses the SoundFont and the MIDI file, builds
`SynthesizerSettings`, creates the synthesizer and sequencer, starts
playback in non-looping mode, computes a buffer length from the MIDI
duration, renders two float buffers, and writes them interleaved into a
WAV container via hound.

Every fallible step in the source is an `.expect(...)`, i.e. a panic.  We
embed the function as a pure function over an environment that records
the outcome of each external call (file system, rustysynth, hound); a
panic becomes `Except.error` carrying the panic site.  f64 arithmetic on
the MIDI duration is modelled exactly over `ℚ` (the claims under study
concern rounding mode, which exact arithmetic captures).  Sample values
produced by the external synthesis engine are modelled as an oracle
`Nat → ℚ × ℚ` (frame index ↦ (left, right)).
-/

set_option autoImplicit false

namespace FireSynth

/-- Tri-state of an nwg checkbox (`nwg::CheckBoxState`). -/
inductive CheckBoxState where
  | Checked
  | Unchecked
  | Indeterminate
deriving DecidableEq, Repr

/-- src/main.rs lines 41-46: `checkbox_state_as_bool`. -/
def checkbox_state_as_bool : CheckBoxState → Bool
  | .Checked => true
  | .Unchecked | .Indeterminate => false

/-- Panic site inside `render`: each corresponds to one `.expect(...)` in
src/main.rs lines 176-221, in source order. -/
inductive Stage where
  | parseRate
  | openSF
  | parseSF
  | openMidi
  | parseMidi
  | synthNew
  | rateToU32
  | wavCreate
  | writeLeft (i : Nat)
  | writeRight (i : Nat)
deriving DecidableEq, Repr

/-- Bank (SoundFont) loading failures: `File::open(sf_path)` or
`SoundFont::new` (src/main.rs lines 183-184). -/
def Stage.isBank : Stage → Bool
  | .openSF => true
  | .parseSF => true
  | _ => false

/-- Performance (MIDI) loading failures: `File::open(midi_path)` or
`MidiFile::new` (src/main.rs lines 186-187). -/
def Stage.isPerf : Stage → Bool
  | .openMidi => true
  | .parseMidi => true
  | _ => false

/-- Sample-write failures inside the output loop (src/main.rs lines 214-221). -/
def Stage.isWrite : Stage → Bool
  | .writeLeft _ => true
  | .writeRight _ => true
  | _ => false

/-- Observable event emitted by `render`, in execution order: the two
input-file opens, `sequencer.play`, `sequencer.render`, creation of the
destination file by `hound::WavWriter::create`, and each sample appended
to the container. -/
inductive Ev where
  | openSF
  | openMidi
  | play (looping : Bool)
  | seqRender (frames : Nat)
  | createDest
  | writeSample (x : ℚ)
deriving DecidableEq, Repr

/-- rustysynth `SynthesizerSettings` as used by `render`: constructed with
`SynthesizerSettings::new(sample_rate)` and then its
`enable_reverb_and_chorus` field is assigned (src/main.rs lines 189-190). -/
structure SynthesizerSettings where
  sample_rate : Int
  enable_reverb_and_chorus : Bool
deriving DecidableEq, Repr

/-- hound `WavSpec` (src/main.rs lines 203-210). -/
structure WavSpec where
  channels : Nat
  sample_rate : Nat
  bits_per_sample : Nat
  isFloat : Bool
deriving DecidableEq, Repr

/-- Environment of one `render` invocation: the parse result of the
sample-rate text field and the responses of every external collaborator
(file system, SoundFont/MIDI parsers, synthesizer construction, WAV
writer creation, the per-write success oracle, and the engine's rendered
samples). -/
structure Env where
  /-- Result of `self.sample_rate.text().parse::<i32>()`: `none` models a
  non-numeric (or out-of-i32-range) text. -/
  parsedSampleRate : Option Int
  /-- `File::open(self.sf_path.text())` succeeds. -/
  sfOpenOk : Bool
  /-- `SoundFont::new` succeeds. -/
  sfParseOk : Bool
  /-- `File::open(self.midi_path.text())` succeeds. -/
  midiOpenOk : Bool
  /-- `MidiFile::new` succeeds. -/
  midiParseOk : Bool
  /-- `midi_file.get_length()` in seconds (an f64, modelled exactly). -/
  midiLength : ℚ
  /-- `Synthesizer::new` succeeds. -/
  synthNewOk : Bool
  /-- `self.reverb.check_state()`. -/
  reverb : CheckBoxState
  /-- Samples the sequencer writes into the buffers: frame index ↦ (left, right). -/
  engine : Nat → ℚ × ℚ
  /-- `hound::WavWriter::create` succeeds. -/
  wavCreateOk : Bool
  /-- The k-th `write_sample` call succeeds (k counts all writes, left and
  right, from 0). -/
  writeOk : Nat → Bool

/-- Largest usize value on the 64-bit targets the program builds for. -/
def USIZE_MAX : Nat := 2 ^ 64 - 1

/-- Rust `x as usize` applied to an f64 value, modelled exactly on ℚ: a
saturating cast that truncates toward zero, clamping negatives to 0 and
values above `USIZE_MAX` to `USIZE_MAX`.  For `x ≥ 0` truncation toward
zero is `⌊x⌋`, and for `x < 0` the clamp to 0 coincides with `Int.toNat`. -/
def f64_as_usize (x : ℚ) : Nat := min (Int.floor x).toNat USIZE_MAX

/-- src/main.rs line 197:
`(f64::from(sample_rate) * midi_file.get_length()) as usize`. -/
def sampleCount (rate : Int) (d : ℚ) : Nat := f64_as_usize ((rate : ℚ) * d)

/-- Modelled from the spec's words (§4.1 step 4) for refinement
comparison only: buffer length `round(sample_rate * duration_seconds)`. -/
def specRoundLength (rate : Int) (d : ℚ) : Nat := (round ((rate : ℚ) * d)).toNat

/-- Rust `i32::try_into::<u32>()` (src/main.rs lines 205-207): fails
exactly on negative values; the u32 upper bound holds automatically for
every i32. -/
def i32_try_into_u32 (r : Int) : Option Nat :=
  if 0 ≤ r then some r.toNat else none

/-- The output loop of src/main.rs lines 214-221: for each frame write the
left sample then the right sample, stopping at the first failing write.
`m` is the number of frames still to write and `i` the current frame
index; returns the samples actually appended and the outcome. -/
def writeLoop (engine : Nat → ℚ × ℚ) (writeOk : Nat → Bool) :
    Nat → Nat → List ℚ × Except Stage Unit
  | 0, _ => ([], Except.ok ())
  | m + 1, i =>
    if writeOk (2 * i) = false then
      ([], Except.error (Stage.writeLeft i))
    else if writeOk (2 * i + 1) = false then
      ([(engine i).1], Except.error (Stage.writeRight i))
    else
      let rest := writeLoop engine writeOk m (i + 1)
      ((engine i).1 :: (engine i).2 :: rest.1, rest.2)

/-- Interleaved sample stream of `m` frames starting at frame `i`: left
sample immediately followed by the right sample of the same frame. -/
def interleave (engine : Nat → ℚ × ℚ) : Nat → Nat → List ℚ
  | 0, _ => []
  | m + 1, i => (engine i).1 :: (engine i).2 :: interleave engine m (i + 1)

/-- Result of one `render` invocation: the event trace, the synthesizer
settings that were constructed (none if a panic struck first), the
outcome (`Except.error s` = panic at site `s`), and the destination-file
contents, `some (spec, samples)` as soon as `WavWriter::create` has
created the file — also when a later write fails, since nothing deletes
the file on the panic path. -/
structure RRes where
  trace : List Ev
  settings : Option SynthesizerSettings
  outcome : Except Stage Unit
  file : Option (WavSpec × List ℚ)

/-- Shallow embedding of `FireSynth::render` (src/main.rs lines 176-224),
step for step in source order: parse the rate, open+parse the SoundFont,
open+parse the MIDI, build settings, create the synthesizer, `play` with
`loop = false`, compute the buffer length, `sequencer.render` over the
full buffers, convert the rate to u32 for the `WavSpec`, create the WAV
writer, then the interleaved write loop. -/
def render (env : Env) : RRes :=
  match env.parsedSampleRate with
  | none =>
    { trace := [], settings := none, outcome := Except.error Stage.parseRate,
      file := none }
  | some rate =>
    if env.sfOpenOk = false then
      { trace := [Ev.openSF], settings := none,
        outcome := Except.error Stage.openSF, file := none }
    else if env.sfParseOk = false then
      { trace := [Ev.openSF], settings := none,
        outcome := Except.error Stage.parseSF, file := none }
    else if env.midiOpenOk = false then
      { trace := [Ev.openSF, Ev.openMidi], settings := none,
        outcome := Except.error Stage.openMidi, file := none }
    else if env.midiParseOk = false then
      { trace := [Ev.openSF, Ev.openMidi], settings := none,
        outcome := Except.error Stage.parseMidi, file := none }
    else
      let settings : SynthesizerSettings :=
        { sample_rate := rate,
          enable_reverb_and_chorus := checkbox_state_as_bool env.reverb }
      if env.synthNewOk = false then
        { trace := [Ev.openSF, Ev.openMidi], settings := some settings,
          outcome := Except.error Stage.synthNew, file := none }
      else
        let n := sampleCount rate env.midiLength
        let t := [Ev.openSF, Ev.openMidi, Ev.play false, Ev.seqRender n]
        match i32_try_into_u32 rate with
        | none =>
          { trace := t, settings := some settings,
            outcome := Except.error Stage.rateToU32, file := none }
        | some u =>
          let spec : WavSpec :=
            { channels := 2, sample_rate := u, bits_per_sample := 32,
              isFloat := true }
          if env.wavCreateOk = false then
            { trace := t, settings := some settings,
              outcome := Except.error Stage.wavCreate, file := none }
          else
            let w := writeLoop env.engine env.writeOk n 0
            { trace := (t ++ [Ev.createDest]) ++ w.1.map Ev.writeSample,
              settings := some settings, outcome := w.2,
              file := some (spec, w.1) }

/-- Environment with every external call succeeding, a silent engine, and
the given parsed sample rate and MIDI duration. -/
def mkEnv (rate : Option Int) (d : ℚ) : Env :=
  { parsedSampleRate := rate
    sfOpenOk := true
    sfParseOk := true
    midiOpenOk := true
    midiParseOk := true
    midiLength := d
    synthNewOk := true
    reverb := CheckBoxState.Unchecked
    engine := fun _ => (0, 0)
    wavCreateOk := true
    writeOk := fun _ => true }

/-! ### Helper lemmas about the write loop -/

theorem interleave_length (engine : Nat → ℚ × ℚ) (m i : Nat) :
    (interleave engine m i).length = 2 * m := by
  induction m generalizing i with
  | zero => rfl
  | succ m ih =>
    simp only [interleave, List.length_cons, ih]
    omega

theorem writeLoop_all_ok (engine : Nat → ℚ × ℚ) (writeOk : Nat → Bool)
    (h : ∀ k, writeOk k = true) (m i : Nat) :
    writeLoop engine writeOk m i = (interleave engine m i, Except.ok ()) := by
  induction m generalizing i with
  | zero => rfl
  | succ m ih => simp [writeLoop, interleave, h, ih]

theorem writeLoop_ok_fst (engine : Nat → ℚ × ℚ) (writeOk : Nat → Bool) (m i : Nat)
    (h : (writeLoop engine writeOk m i).2 = Except.ok ()) :
    (writeLoop engine writeOk m i).1 = interleave engine m i := by
  induction m generalizing i with
  | zero => rfl
  | succ m ih =>
    by_cases h0 : writeOk (2 * i) = false
    · simp [writeLoop, h0] at h
    · by_cases h1 : writeOk (2 * i + 1) = false
      · simp [writeLoop, h0, h1] at h
      · simp [writeLoop, interleave, h0, h1] at h ⊢
        exact ih (i + 1) h

theorem writeLoop_err_isWrite (engine : Nat → ℚ × ℚ) (writeOk : Nat → Bool)
    (m i : Nat) (s : Stage)
    (h : (writeLoop engine writeOk m i).2 = Except.error s) : s.isWrite = true := by
  induction m generalizing i with
  | zero => simp [writeLoop] at h
  | succ m ih =>
    by_cases h0 : writeOk (2 * i) = false
    · simp [writeLoop, h0] at h
      simp [← h, Stage.isWrite]
    · by_cases h1 : writeOk (2 * i + 1) = false
      · simp [writeLoop, h0, h1] at h
        simp [← h, Stage.isWrite]
      · simp [writeLoop, h0, h1] at h
        exact ih (i + 1) h

/-- Characterization of a successful `render`: the rate parsed to a
nonnegative value and the destination file holds the full interleaved
stream with the spec built from the rate, and the settings carry the
checkbox-derived effects flag. -/
theorem render_ok_char (env : Env) (h : (render env).outcome = Except.ok ()) :
    ∃ r, env.parsedSampleRate = some r ∧ 0 ≤ r ∧
      (render env).settings = some
        { sample_rate := r,
          enable_reverb_and_chorus := checkbox_state_as_bool env.reverb } ∧
      (render env).file = some
        ({ channels := 2, sample_rate := r.toNat, bits_per_sample := 32,
           isFloat := true },
         interleave env.engine (sampleCount r env.midiLength) 0) := by
  obtain ⟨pr, sfo, sfp, mo, mp, d, sn, rv, eng, wc, wo⟩ := env
  cases pr with
  | none => simp [render] at h
  | some rate =>
    cases sfo with
    | false => simp [render] at h
    | true =>
    cases sfp with
    | false => simp [render] at h
    | true =>
    cases mo with
    | false => simp [render] at h
    | true =>
    cases mp with
    | false => simp [render] at h
    | true =>
    cases sn with
    | false => simp [render] at h
    | true =>
    by_cases hrate : 0 ≤ rate
    · cases wc with
      | false => simp [render, i32_try_into_u32, hrate] at h
      | true =>
        simp only [render, i32_try_into_u32, if_pos hrate] at h ⊢
        simp only [Bool.true_eq_false, if_false] at h ⊢
        refine ⟨rate, rfl, hrate, rfl, ?_⟩
        have := writeLoop_ok_fst eng wo (sampleCount rate d) 0 h
        simp [this]
    · simp [render, i32_try_into_u32, hrate] at h

/-! ### Claim C1: buffer length and output frame count -/

/-- Claim C1 (amended): for every valid bank and performance with duration
`d` rendered at rate `r ≥ 0`, the buffer length computed by `render` is
the truncation `⌊r·d⌋` (NOT `round(r·d)` as the claim states), and this
single length is both the frame count the sequencer is asked for and the
frame count written to the container (2 samples per frame). -/
theorem C1_length_floor (env : Env) (r : Int)
    (hr : env.parsedSampleRate = some r) (hr0 : 0 ≤ r)
    (ho1 : env.sfOpenOk = true) (ho2 : env.sfParseOk = true)
    (ho3 : env.midiOpenOk = true) (ho4 : env.midiParseOk = true)
    (ho5 : env.synthNewOk = true) (ho6 : env.wavCreateOk = true)
    (ho7 : ∀ k, env.writeOk k = true)
    (hcap : (r : ℚ) * env.midiLength < 2 ^ 64) :
    sampleCount r env.midiLength = (⌊(r : ℚ) * env.midiLength⌋).toNat ∧
    Ev.seqRender (sampleCount r env.midiLength) ∈ (render env).trace ∧
    ∃ samples, (render env).file = some
      ({ channels := 2, sample_rate := r.toNat, bits_per_sample := 32,
         isFloat := true }, samples) ∧
      samples.length = 2 * sampleCount r env.midiLength := by
  have hfloor : sampleCount r env.midiLength = (⌊(r : ℚ) * env.midiLength⌋).toNat := by
    unfold sampleCount f64_as_usize
    refine min_eq_left ?_
    have hlt : (⌊(r : ℚ) * env.midiLength⌋ : ℤ) < 2 ^ 64 := by
      rw [Int.floor_lt]
      push_cast
      exact hcap
    have hpow : ((2 : ℤ) ^ 64) = 18446744073709551616 := by norm_num
    have hm : USIZE_MAX = 18446744073709551615 := by unfold USIZE_MAX; norm_num
    rw [hpow] at hlt
    rw [hm]
    omega
  have hw := writeLoop_all_ok env.engine env.writeOk ho7 (sampleCount r env.midiLength) 0
  refine ⟨hfloor, ?_, interleave env.engine (sampleCount r env.midiLength) 0, ?_,
    interleave_length _ _ _⟩ <;>
    simp [render, hr, ho1, ho2, ho3, ho4, ho5, ho6, i32_try_into_u32, hr0, hw]

/-- Witness for C1_length_floor at rate 2, duration 3/4 seconds. -/
theorem C1_length_floor_witness :
    sampleCount 2 (3 / 4) = (⌊(2 : ℚ) * (3 / 4)⌋).toNat ∧
    Ev.seqRender (sampleCount 2 (3 / 4)) ∈ (render (mkEnv (some 2) (3 / 4))).trace ∧
    ∃ samples, (render (mkEnv (some 2) (3 / 4))).file = some
      ({ channels := 2, sample_rate := (2 : Int).toNat, bits_per_sample := 32,
         isFloat := true }, samples) ∧
      samples.length = 2 * sampleCount 2 (3 / 4) :=
  C1_length_floor (mkEnv (some 2) (3 / 4)) 2 rfl (by norm_num) rfl rfl rfl rfl rfl rfl
    (fun _ => rfl) (by norm_num [mkEnv])

/-- Counterexample to C1 as stated: at rate 2 and duration 3/4 the spec
formula `round(r·d) = round(3/2) = 2` but the code computes the truncated
length 1 and writes a 1-frame (2-sample) file. -/
theorem C1_round_counterexample :
    specRoundLength 2 (3 / 4) = 2 ∧ sampleCount 2 (3 / 4) = 1 ∧
    (render (mkEnv (some 2) (3 / 4))).file = some
      ({ channels := 2, sample_rate := 2, bits_per_sample := 32,
         isFloat := true }, [0, 0]) := by
  have hn : sampleCount 2 (3 / 4) = 1 := by
    unfold sampleCount f64_as_usize USIZE_MAX
    norm_num
  refine ⟨?_, hn, ?_⟩
  · unfold specRoundLength
    norm_num [round_eq]
    rfl
  · simp [render, mkEnv, i32_try_into_u32, hn, writeLoop]

/-! ### Claim C2: rejection of invalid sample-rate text -/

/-- Claim C2 (amended): a NON-NUMERIC sample-rate text is rejected at the
parse stage before any file I/O (empty trace) and no destination file is
created or modified.  (Zero and negative rates, by contrast, parse
successfully — see the counterexample.) -/
theorem C2_nonnumeric_rejected (env : Env) (h : env.parsedSampleRate = none) :
    render env = { trace := [], settings := none,
                   outcome := Except.error Stage.parseRate, file := none } := by
  simp [render, h]

/-- Witness for C2_nonnumeric_rejected. -/
theorem C2_nonnumeric_rejected_witness :
    render (mkEnv none 1) = { trace := [], settings := none,
                              outcome := Except.error Stage.parseRate,
                              file := none } :=
  C2_nonnumeric_rejected (mkEnv none 1) rfl

/-- Counterexample to C2 as stated: a sample-rate text parsing to 0 (an
invalid rate per the claim) is NOT rejected before file I/O — the
SoundFont open is executed, and the outcome is not an input-parse error. -/
theorem C2_zero_rate_counterexample :
    (mkEnv (some 0) 1).parsedSampleRate = some 0 ∧
    Ev.openSF ∈ (render (mkEnv (some 0) 1)).trace ∧
    (render (mkEnv (some 0) 1)).outcome ≠ Except.error Stage.parseRate := by
  have hn : sampleCount 0 1 = 0 := by
    unfold sampleCount f64_as_usize USIZE_MAX
    norm_num
  refine ⟨rfl, ?_, ?_⟩ <;>
    simp [render, mkEnv, i32_try_into_u32, hn, writeLoop]

/-! ### Claim C3: structured resource errors, no destination file -/

/-- Claim C3: a failure opening or parsing the SoundFont (bank) makes
`render` fail at a bank stage, a failure opening or parsing the MIDI
(performance) makes it fail at a performance stage, and in both cases no
destination file is created.  (The code reports these by panicking with a
stage-specific message rather than returning a `Result`; the panic site
is the structured error of the embedding.) -/
theorem C3_resource_errors (env : Env) (r : Int)
    (hr : env.parsedSampleRate = some r) :
    (env.sfOpenOk = false ∨ env.sfParseOk = false →
      ∃ s, (render env).outcome = Except.error s ∧ s.isBank = true ∧
        (render env).file = none) ∧
    (env.sfOpenOk = true → env.sfParseOk = true →
      env.midiOpenOk = false ∨ env.midiParseOk = false →
      ∃ s, (render env).outcome = Except.error s ∧ s.isPerf = true ∧
        (render env).file = none) := by
  constructor
  · rintro (h | h)
    · exact ⟨Stage.openSF, by simp [render, hr, h], rfl, by simp [render, hr, h]⟩
    · cases ho : env.sfOpenOk with
      | false =>
        exact ⟨Stage.openSF, by simp [render, hr, ho], rfl, by simp [render, hr, ho]⟩
      | true =>
        exact ⟨Stage.parseSF, by simp [render, hr, ho, h], rfl,
          by simp [render, hr, ho, h]⟩
  · intro h1 h2
    rintro (h | h)
    · exact ⟨Stage.openMidi, by simp [render, hr, h1, h2, h], rfl,
        by simp [render, hr, h1, h2, h]⟩
    · cases hm : env.midiOpenOk with
      | false =>
        exact ⟨Stage.openMidi, by simp [render, hr, h1, h2, hm], rfl,
          by simp [render, hr, h1, h2, hm]⟩
      | true =>
        exact ⟨Stage.parseMidi, by simp [render, hr, h1, h2, hm, h], rfl,
          by simp [render, hr, h1, h2, hm, h]⟩

/-- Environment whose SoundFont file fails to open. -/
def envBankFail : Env := { mkEnv (some 44100) 1 with sfOpenOk := false }

/-- Witness for C3_resource_errors: a failing bank open produces a
bank-stage error and no destination file. -/
theorem C3_resource_errors_witness :
    ∃ s, (render envBankFail).outcome = Except.error s ∧ s.isBank = true ∧
      (render envBankFail).file = none :=
  (C3_resource_errors envBankFail 44100 rfl).1 (Or.inl rfl)

/-! ### Claim C4: no partial output file -/

/-- Claim C4 (amended): if `render` fails at any stage before the
destination container is created (parse, resource load, engine
construction, rate conversion, writer creation), no destination file
exists; this cannot be strengthened to write failures — see the
counterexample, where a failed render leaves a partially written file. -/
theorem C4_no_file_unless_write_stage (env : Env) (s : Stage)
    (h : (render env).outcome = Except.error s) (hs : s.isWrite = false) :
    (render env).file = none := by
  obtain ⟨pr, sfo, sfp, mo, mp, d, sn, rv, eng, wc, wo⟩ := env
  cases pr with
  | none => simp [render]
  | some rate =>
    cases sfo with
    | false => simp [render]
    | true =>
    cases sfp with
    | false => simp [render]
    | true =>
    cases mo with
    | false => simp [render]
    | true =>
    cases mp with
    | false => simp [render]
    | true =>
    cases sn with
    | false => simp [render]
    | true =>
    by_cases hrate : 0 ≤ rate
    · cases wc with
      | false => simp [render, i32_try_into_u32, hrate]
      | true =>
        simp only [render, i32_try_into_u32, if_pos hrate, Bool.true_eq_false,
          if_false] at h
        have := writeLoop_err_isWrite eng wo (sampleCount rate d) 0 s h
        rw [this] at hs
        exact absurd hs (by simp)
    · simp [render, i32_try_into_u32, hrate]

/-- Environment whose MIDI file fails to open. -/
def envMidiFail : Env := { mkEnv (some 3) 1 with midiOpenOk := false }

/-- Witness for C4_no_file_unless_write_stage: a render failing at the
MIDI-open stage leaves no destination file. -/
theorem C4_no_file_unless_write_stage_witness :
    (render envMidiFail).file = none :=
  C4_no_file_unless_write_stage envMidiFail Stage.openMidi rfl rfl

/-- Counterexample to C4 as stated: with a destination created and the
second sample write failing, `render` fails, yet a partially written
destination file (1 sample, where a complete file would hold
2·2 = 4 samples) remains. -/
theorem C4_partial_file_counterexample :
    (render { mkEnv (some 2) 1 with writeOk := fun k => k == 0 }).outcome =
      Except.error (Stage.writeRight 0) ∧
    (render { mkEnv (some 2) 1 with writeOk := fun k => k == 0 }).file = some
      ({ channels := 2, sample_rate := 2, bits_per_sample := 32,
         isFloat := true }, [0]) ∧
    sampleCount 2 1 = 2 := by
  have hn : sampleCount 2 1 = 2 := by
    unfold sampleCount f64_as_usize USIZE_MAX
    norm_num
    decide
  refine ⟨?_, ?_, hn⟩
  · simp [render, mkEnv, i32_try_into_u32, hn, writeLoop]
  · simp [render, mkEnv, i32_try_into_u32, hn, writeLoop]

/-! ### Claim C5: output container format -/

/-- Claim C5: a successful render writes a container with exactly 2
channels, 32-bit floating-point samples, the requested sample rate, and
the interleaved stream (the left sample of each frame immediately
followed by its right sample), with total frame count equal to the
requested buffer length. -/
theorem C5_output_format (env : Env) (r : Int)
    (hr : env.parsedSampleRate = some r) (hr0 : 0 ≤ r)
    (ho1 : env.sfOpenOk = true) (ho2 : env.sfParseOk = true)
    (ho3 : env.midiOpenOk = true) (ho4 : env.midiParseOk = true)
    (ho5 : env.synthNewOk = true) (ho6 : env.wavCreateOk = true)
    (ho7 : ∀ k, env.writeOk k = true) :
    (render env).outcome = Except.ok () ∧
    (render env).file = some
      ({ channels := 2, sample_rate := r.toNat, bits_per_sample := 32,
         isFloat := true },
       interleave env.engine (sampleCount r env.midiLength) 0) ∧
    (interleave env.engine (sampleCount r env.midiLength) 0).length
      = 2 * sampleCount r env.midiLength := by
  have hw := writeLoop_all_ok env.engine env.writeOk ho7 (sampleCount r env.midiLength) 0
  refine ⟨?_, ?_, interleave_length _ _ _⟩ <;>
    simp [render, hr, ho1, ho2, ho3, ho4, ho5, ho6, i32_try_into_u32, hr0, hw]

/-- Witness for C5_output_format at rate 44100, duration 1 second. -/
theorem C5_output_format_witness :
    (render (mkEnv (some 44100) 1)).outcome = Except.ok () ∧
    (render (mkEnv (some 44100) 1)).file = some
      ({ channels := 2, sample_rate := (44100 : Int).toNat,
         bits_per_sample := 32, isFloat := true },
       interleave (mkEnv (some 44100) 1).engine (sampleCount 44100 1) 0) ∧
    (interleave (mkEnv (some 44100) 1).engine (sampleCount 44100 1) 0).length
      = 2 * sampleCount 44100 1 :=
  C5_output_format (mkEnv (some 44100) 1) 44100 rfl (by norm_num) rfl rfl rfl rfl
    rfl rfl (fun _ => rfl)

/-! ### Claim C6: zero duration renders an empty file successfully -/

/-- Claim C6: a performance of duration 0 (under an otherwise healthy
environment) renders successfully: the destination file is created,
valid, and holds zero frames, and no error is reported. -/
theorem C6_zero_duration_success (env : Env) (r : Int)
    (hr : env.parsedSampleRate = some r) (hr0 : 0 ≤ r)
    (ho1 : env.sfOpenOk = true) (ho2 : env.sfParseOk = true)
    (ho3 : env.midiOpenOk = true) (ho4 : env.midiParseOk = true)
    (ho5 : env.synthNewOk = true) (ho6 : env.wavCreateOk = true)
    (ho7 : ∀ k, env.writeOk k = true)
    (hd : env.midiLength = 0) :
    (render env).outcome = Except.ok () ∧
    (render env).file = some
      ({ channels := 2, sample_rate := r.toNat, bits_per_sample := 32,
         isFloat := true }, []) ∧
    Ev.createDest ∈ (render env).trace := by
  have hn : sampleCount r env.midiLength = 0 := by
    rw [hd]
    unfold sampleCount f64_as_usize
    simp
  have hw := writeLoop_all_ok env.engine env.writeOk ho7 0 0
  refine ⟨?_, ?_, ?_⟩ <;>
    simp [render, hr, ho1, ho2, ho3, ho4, ho5, ho6, i32_try_into_u32, hr0, hn, hw,
      interleave]

/-- Witness for C6_zero_duration_success at rate 44100. -/
theorem C6_zero_duration_success_witness :
    (render (mkEnv (some 44100) 0)).outcome = Except.ok () ∧
    (render (mkEnv (some 44100) 0)).file = some
      ({ channels := 2, sample_rate := (44100 : Int).toNat,
         bits_per_sample := 32, isFloat := true }, []) ∧
    Ev.createDest ∈ (render (mkEnv (some 44100) 0)).trace :=
  C6_zero_duration_success (mkEnv (some 44100) 0) 44100 rfl (by norm_num) rfl rfl
    rfl rfl rfl rfl (fun _ => rfl) rfl

/-! ### Claim C7: playback is non-looping, one full-buffer render pass -/

/-- Claim C7: once the engine is constructed, the trace starts with the
two input opens, `play` with looping disabled, and a single sequencer
request for exactly the buffer length in frames; everything after it is
destination-file activity (creation or sample writes), i.e. no disk
flushing happens before or during the one render pass. -/
theorem C7_play_nonlooping_single_pass (env : Env) (r : Int)
    (hr : env.parsedSampleRate = some r)
    (ho1 : env.sfOpenOk = true) (ho2 : env.sfParseOk = true)
    (ho3 : env.midiOpenOk = true) (ho4 : env.midiParseOk = true)
    (ho5 : env.synthNewOk = true) :
    ∃ rest, (render env).trace =
      [Ev.openSF, Ev.openMidi, Ev.play false,
       Ev.seqRender (sampleCount r env.midiLength)] ++ rest ∧
      ∀ e ∈ rest, e = Ev.createDest ∨ ∃ x, e = Ev.writeSample x := by
  by_cases hrate : 0 ≤ r
  · cases hwc : env.wavCreateOk with
    | false =>
      refine ⟨[], ?_, by simp⟩
      simp [render, hr, ho1, ho2, ho3, ho4, ho5, i32_try_into_u32, hrate, hwc]
    | true =>
      refine ⟨Ev.createDest ::
        ((writeLoop env.engine env.writeOk (sampleCount r env.midiLength) 0).1.map
          Ev.writeSample), ?_, ?_⟩
      · simp [render, hr, ho1, ho2, ho3, ho4, ho5, i32_try_into_u32, hrate, hwc]
      · intro e he
        rcases List.mem_cons.mp he with h | h
        · exact Or.inl h
        · rcases List.mem_map.mp h with ⟨x, _, hx⟩
          exact Or.inr ⟨x, hx.symm⟩
  · refine ⟨[], ?_, by simp⟩
    simp [render, hr, ho1, ho2, ho3, ho4, ho5, i32_try_into_u32, hrate]

/-- Witness for C7_play_nonlooping_single_pass at rate 44100, duration 1. -/
theorem C7_play_nonlooping_single_pass_witness :
    ∃ rest, (render (mkEnv (some 44100) 1)).trace =
      [Ev.openSF, Ev.openMidi, Ev.play false,
       Ev.seqRender (sampleCount 44100 1)] ++ rest ∧
      ∀ e ∈ rest, e = Ev.createDest ∨ ∃ x, e = Ev.writeSample x :=
  C7_play_nonlooping_single_pass (mkEnv (some 44100) 1) 44100 rfl rfl rfl rfl rfl rfl

/-! ### Claim C8: determinism of the render output -/

/-- Claim C8: two render invocations whose inputs agree (parsed sample
rate, performance duration, effects checkbox, and the deterministic
engine's samples) and which both succeed produce identical destination
files and identical synthesizer settings, regardless of any other detail
of the two executions. -/
theorem C8_determinism (env1 env2 : Env)
    (hrate : env1.parsedSampleRate = env2.parsedSampleRate)
    (hd : env1.midiLength = env2.midiLength)
    (hrv : env1.reverb = env2.reverb)
    (heng : env1.engine = env2.engine)
    (hok1 : (render env1).outcome = Except.ok ())
    (hok2 : (render env2).outcome = Except.ok ()) :
    (render env1).file = (render env2).file ∧
    (render env1).settings = (render env2).settings := by
  obtain ⟨r1, hp1, _, hs1, hf1⟩ := render_ok_char env1 hok1
  obtain ⟨r2, hp2, _, hs2, hf2⟩ := render_ok_char env2 hok2
  have hr12 : r1 = r2 := by
    rw [hp1, hp2] at hrate
    exact Option.some.inj hrate
  subst hr12
  rw [hf1, hf2, hs1, hs2, hd, hrv, heng]
  exact ⟨rfl, rfl⟩

/-- Second run of the rate-2, duration-3/2 render: same inputs, but the
file-system write oracle differs in ways the successful runs never
observe. -/
def envRunB : Env :=
  { mkEnv (some 2) (3 / 2) with writeOk := fun k => decide (k < 100) }

/-- Witness for C8_determinism: the all-true run and the differing-oracle
run at identical inputs produce the same file and settings. -/
theorem C8_determinism_witness :
    (render (mkEnv (some 2) (3 / 2))).file = (render envRunB).file ∧
    (render (mkEnv (some 2) (3 / 2))).settings = (render envRunB).settings := by
  have hn : sampleCount 2 (3 / 2) = 3 := by
    unfold sampleCount f64_as_usize USIZE_MAX
    norm_num
    decide
  refine C8_determinism (mkEnv (some 2) (3 / 2)) envRunB rfl rfl rfl rfl ?_ ?_ <;>
    simp [render, envRunB, mkEnv, i32_try_into_u32, hn, writeLoop]

/-! ### Claim C9: the effects flag follows the checkbox -/

/-- Claim C9: `checkbox_state_as_bool` is true exactly on `Checked` (so
`Indeterminate` behaves like `Unchecked`), and whenever `render`
constructs synthesizer settings, their `enable_reverb_and_chorus` flag is
exactly `checkbox_state_as_bool` of the checkbox state. -/
theorem C9_effects_flag :
    (∀ s, checkbox_state_as_bool s = true ↔ s = CheckBoxState.Checked) ∧
    (∀ env st, (render env).settings = some st →
      st.enable_reverb_and_chorus = checkbox_state_as_bool env.reverb) := by
  constructor
  · intro s
    cases s <;> simp [checkbox_state_as_bool]
  · intro env st h
    obtain ⟨pr, sfo, sfp, mo, mp, d, sn, rv, eng, wc, wo⟩ := env
    cases pr with
    | none => simp [render] at h
    | some rate =>
      cases sfo with
      | false => simp [render] at h
      | true =>
      cases sfp with
      | false => simp [render] at h
      | true =>
      cases mo with
      | false => simp [render] at h
      | true =>
      cases mp with
      | false => simp [render] at h
      | true =>
      cases sn with
      | false =>
        simp [render] at h
        simp [← h]
      | true =>
        by_cases hrate : 0 ≤ rate
        · cases wc with
          | false =>
            simp [render, i32_try_into_u32, hrate] at h
            simp [← h]
          | true =>
            simp only [render, i32_try_into_u32, if_pos hrate, Bool.true_eq_false,
              if_false, Option.some.injEq] at h
            simp [← h]
        · simp [render, i32_try_into_u32, hrate] at h
          simp [← h]

/-- Environment that fails at synthesizer construction with the checkbox
in the `Indeterminate` state. -/
def envC9 : Env :=
  { mkEnv (some 44100) 1 with synthNewOk := false,
                              reverb := CheckBoxState.Indeterminate }

/-- Witness for C9_effects_flag: the settings constructed under an
`Indeterminate` checkbox carry `enable_reverb_and_chorus = false`. -/
theorem C9_effects_flag_witness :
    ({ sample_rate := 44100, enable_reverb_and_chorus := false } :
      SynthesizerSettings).enable_reverb_and_chorus
      = checkbox_state_as_bool envC9.reverb :=
  C9_effects_flag.2 envC9
    { sample_rate := 44100, enable_reverb_and_chorus := false } rfl

/-! ### Claim C10: negative sample rates never reach the success path -/

/-- Claim C10: under a negative parsed sample rate, the i32→u32 conversion
at container construction fails, `render` never succeeds, and no
destination file is produced. -/
theorem C10_negative_rate_no_output (env : Env) (r : Int)
    (hr : env.parsedSampleRate = some r) (hneg : r < 0) :
    i32_try_into_u32 r = none ∧
    (render env).outcome ≠ Except.ok () ∧
    (render env).file = none := by
  have hnle : ¬ 0 ≤ r := not_le.mpr hneg
  have hkey : (render env).outcome ≠ Except.ok () ∧ (render env).file = none := by
    obtain ⟨pr, sfo, sfp, mo, mp, d, sn, rv, eng, wc, wo⟩ := env
    replace hr : pr = some r := hr
    subst hr
    cases sfo with
    | false => simp [render]
    | true =>
    cases sfp with
    | false => simp [render]
    | true =>
    cases mo with
    | false => simp [render]
    | true =>
    cases mp with
    | false => simp [render]
    | true =>
    cases sn with
    | false => simp [render]
    | true => simp [render, i32_try_into_u32, hnle]
  exact ⟨by simp [i32_try_into_u32, hnle], hkey.1, hkey.2⟩

/-- Environment whose sample-rate text parses to -5. -/
def envC10 : Env := mkEnv (some (-5)) 1

/-- Witness for C10_negative_rate_no_output at rate -5. -/
theorem C10_negative_rate_no_output_witness :
    i32_try_into_u32 (-5) = none ∧
    (render envC10).outcome ≠ Except.ok () ∧
    (render envC10).file = none :=
  C10_negative_rate_no_output envC10 (-5) rfl (by norm_num)

end FireSynth
